import Mathlib

/-!
Verification development for the Hexabot Discord channel adapter
(`hexabot-channel-discord`): a shallow embedding, in Lean, of the event
normalization layer (`wrapper.ts`, class `DiscordEventWrapper`) and the
outgoing message-format translation layer (`index.channel.ts`, class
`DiscordChannelHandler`), together with theorems about the embedded
functions.

Conventions of the embedding:
* TypeScript values that may be `undefined`/`null` are `Option`s.
* JavaScript truthiness tests on strings (`''` is falsy) are made explicit
  through `truthyStr`/`truthyName`/`truthyVal`.
* Fallible code returns `Except`; external collaborators (attachment URL
  resolution, `Date.now()`, the Discord transport assigning message ids)
  are passed in as function parameters.
-/

namespace Discord

/-! ## Shared enums (host platform `@/chat/schemas/types`) -/

inductive StdEventType
  | message
  | echo
  | unknown
deriving DecidableEq

inductive IncomingMessageType
  | message
  | postback
  | attachments
deriving DecidableEq

inductive FileType
  | image
  | video
  | audio
  | file
  | unknown
deriving DecidableEq

/-- String rendering of a `FileType`, as the TS enum value interpolates. -/
def FileType.toStr : FileType → String
  | .image => "image"
  | .video => "video"
  | .audio => "audio"
  | .file => "file"
  | .unknown => "unknown"

inductive ButtonStyle
  | primary
  | secondary
  | link
deriving DecidableEq

/-! ## Raw incoming events (discord.js `Message` / `ButtonInteraction`)

The wrapper's `_init` classifies a raw event by structural field presence
(`'customId' in event`, `'content' in event`), so the raw event is embedded
as a record of optional fields; a field is `none` exactly when the raw
event shape does not carry it. -/

/-- A raw attachment hanging off a Discord message (`message.attachments`);
only its presence is inspected by the code under verification. -/
structure DiscordAttachment where
  id : String := ""
  url : String := ""
  contentType : Option String := none
deriving DecidableEq

inductive ChannelKind
  | guildText
  | dm
  | other
deriving DecidableEq

/-- A `ButtonComponent` sitting on an already-sent Discord message
(`interaction.message.components[row].components[k]`). -/
structure ButtonComponent where
  customId : Option String := none
  label : Option String := none
  style : ButtonStyle := .secondary
  url : Option String := none
deriving DecidableEq

/-- A raw incoming Discord event (`Discord.IncomingEvent` =
`ButtonInteraction | Message`): `customId` is present exactly on button
interactions, `content` exactly on messages. -/
structure IncomingEvent where
  id : String
  customId : Option String := none
  content : Option String := none
  authorBot : Bool := false
  attachments : List DiscordAttachment := []
  system : Bool := false
  channelTextBased : Bool := true
  channelKind : ChannelKind := .dm
  mentionsBot : Bool := false
  messageComponents : List (List ButtonComponent) := []
  createdTimestamp : Nat := 0
deriving DecidableEq

/-- A stored attachment record of the host platform
(`@/attachment/schemas/attachment.schema`), as held in
`this._adapter.attachments`: `type` is the declared MIME type. -/
structure StoredAttachment where
  id : String := ""
  type : Option String := none
  name : String := ""
deriving DecidableEq

/-- Modelled from the spec: the host platform's `Attachment.getTypeByMime`
(the class is an external collaborator, not part of this repository):
"each attachment is tagged with a coarse type derived from its declared
MIME type's primary category (e.g. "image/png" → image); unknown/missing
MIME ⇒ type `unknown`". -/
def getTypeByMime (mime : Option String) : FileType :=
  match mime with
  | none => .unknown
  | some m =>
    let primary := String.mk (m.toList.takeWhile (fun c => c ≠ '/'))
    if primary = "image" then .image
    else if primary = "video" then .video
    else if primary = "audio" then .audio
    else if primary = "file" then .file
    else .unknown

/-! ## The event wrapper (`wrapper.ts`, `DiscordEventWrapper`) -/

/-- The `DiscordEventAdapter` state built by `_init`: `messageType` is
`none` when the branch taken never assigns it (the `unknown` shape). The
`attachments` list is the resolved stored attachments
(`this._adapter.attachments`), populated externally. -/
structure DiscordEventAdapter where
  eventType : StdEventType
  messageType : Option IncomingMessageType
  raw : IncomingEvent
  attachments : List StoredAttachment := []
deriving DecidableEq

/-- Source `DiscordEventWrapper._init`: classify the raw event by field presence,
in priority order (`customId` first, then `content`, else unknown). -/
def wrapInit (event : IncomingEvent) : DiscordEventAdapter :=
  if event.customId.isSome then
    { eventType := .message, messageType := some .postback, raw := event }
  else if event.content.isSome then
    { eventType := if event.authorBot then .echo else .message,
      messageType :=
        some (if event.attachments.length > 0 then .attachments else .message),
      raw := event }
  else
    { eventType := .unknown, messageType := none, raw := event }

/-- Base-class accessor `getMessageType`. -/
def getMessageType (a : DiscordEventAdapter) : Option IncomingMessageType :=
  a.messageType

/-- Base-class accessor `getEventType`. -/
def getEventType (a : DiscordEventAdapter) : StdEventType :=
  a.eventType

/-- Base-class mutator `setMessageType` (used by the handler to force the
text half of a text+attachments message). -/
def setMessageType (a : DiscordEventAdapter) (t : IncomingMessageType) :
    DiscordEventAdapter :=
  { a with messageType := some t }

/-- Source `DiscordEventWrapper.getId`: attachments-classified events get a
distinguishing `attachment-` prefix because one raw event may be emitted as
two canonical events. -/
def getId (a : DiscordEventAdapter) : String :=
  if getMessageType a = some .attachments then
    "attachment-" ++ a.raw.id
  else
    a.raw.id

/-- The payload of an attachments event:
`{ type, payload: { id } }` (`payloadId = none` models `id: null`). -/
structure AttachmentPayload where
  type : FileType
  payloadId : Option String
deriving DecidableEq

/-- Result shape of `getPayload` (`Payload`, a string, or JS undefined). -/
inductive GetPayloadResult
  | postback (customId : String)
  | attachments (attachment : AttachmentPayload)
  | jsUndefined
deriving DecidableEq

/-- Source `DiscordEventWrapper.getPayload`. -/
def getPayload (a : DiscordEventAdapter) : GetPayloadResult :=
  if a.messageType = some .postback then
    .postback (a.raw.customId.getD "")
  else if a.messageType = some .attachments then
    if a.attachments.length = 0 then
      .attachments { type := .unknown, payloadId := none }
    else
      let attachmentPayloads := a.attachments.map fun attachment =>
        ({ type := getTypeByMime attachment.type,
           payloadId := some attachment.id } : AttachmentPayload)
      .attachments (attachmentPayloads.headD { type := .unknown, payloadId := none })
  else
    .jsUndefined

/-- The `attachment` field of an attachments message: the TS code puts a
single object when there is exactly one payload and the whole array
otherwise (and `[]` when there is none). -/
inductive AttachmentsField
  | empty
  | single (p : AttachmentPayload)
  | multiple (ps : List AttachmentPayload)
deriving DecidableEq

/-- Result shape of `getMessage` (`StdIncomingMessage`). -/
inductive StdIncomingMessage
  | text (text : String)
  | postback (postback : String) (text : String)
  | attachments (serialized : String) (attachment : AttachmentsField)
deriving DecidableEq

/-- Source `DiscordEventWrapper.getMessage`; `.error` models a thrown `Error`. -/
def getMessage (a : DiscordEventAdapter) : Except String StdIncomingMessage :=
  if a.messageType = some .message then
    .ok (.text (a.raw.content.getD ""))
  else if a.messageType = some .postback then
    let pb := a.raw.customId.getD ""
    match a.raw.messageComponents.head? with
    | none => .error "MalformedInteraction"
    | some row =>
      match row.find? (fun c => c.customId == some pb) with
      | none => .error "MalformedInteraction"
      | some component => .ok (.postback pb (component.label.getD ""))
  else if a.messageType = some .attachments then
    if a.attachments.length = 0 then
      .ok (.attachments ("attachment:" ++ FileType.unknown.toStr) .empty)
    else
      let attachmentPayloads := a.attachments.map fun attachment =>
        ({ type := getTypeByMime attachment.type,
           payloadId := some attachment.id } : AttachmentPayload)
      let first := attachmentPayloads.headD { type := .unknown, payloadId := none }
      let firstName := (a.attachments.headD {}).name
      .ok (.attachments
        ("attachment:" ++ first.type.toStr ++ ":" ++ firstName)
        (if attachmentPayloads.length = 1 then .single first
         else .multiple attachmentPayloads))
  else
    .error "Unknown incoming message type"

/-- Source `DiscordEventWrapper.getDeliveredMessages`: always empty. -/
def getDeliveredMessages (_a : DiscordEventAdapter) : List String := []

/-- Source `DiscordEventWrapper.getWatermark`. -/
def getWatermark (a : DiscordEventAdapter) : Nat :=
  a.raw.createdTimestamp

/-! ## Channel handler, inbound side (`index.channel.ts`, `init`) -/

/-- A canonical event published on the host event bus
(`eventEmitter.emit(hookName, event)` — the fields of the wrapped event
that the claims inspect). -/
structure EmittedEvent where
  hook : String
  eventType : StdEventType
  messageType : Option IncomingMessageType
  id : String
deriving DecidableEq

/-- The string value of a `StdEventType` as interpolated into a hook name. -/
def StdEventType.hookName : StdEventType → String
  | .message => "message"
  | .echo => "echo"
  | .unknown => "unknown"

/-- Source `DiscordChannelHandler.emitEvent`: wrap the raw event; publish it under
`hook:chatbot:<eventType>` unless it classified as `unknown` (then it is
only logged). -/
def emitEvent (e : IncomingEvent) : List EmittedEvent :=
  let event := wrapInit e
  if getEventType event ≠ .unknown then
    [{ hook := "hook:chatbot:" ++ (getEventType event).hookName,
       eventType := getEventType event,
       messageType := getMessageType event,
       id := getId event }]
  else
    []

/-- The mention-stripping step of the `MessageCreate` handler:
`message.content.replaceAll(botMention, '').trim()` with
`botMention = '<@' + botUserId + '>'`. -/
def stripBotMention (botUserId : String) (content : String) : String :=
  (content.replace ("<@" ++ botUserId ++ ">") "").trim

/-- The `Events.MessageCreate` listener registered in
`DiscordChannelHandler.init`: drop system messages, non-text-based
channels and guild messages that do not mention the bot; strip the mention
from guild messages; then, when the message carries both attachments and
nonempty text, emit an extra canonical event forced to
`messageType = message` before the regular `emitEvent`. -/
def handleMessageCreate (botUserId : String) (message : IncomingEvent) :
    List EmittedEvent :=
  if message.system then
    []
  else if !message.channelTextBased then
    []
  else if message.channelKind = .guildText ∧ !message.mentionsBot then
    []
  else
    let message :=
      if message.channelKind = .guildText then
        { message with content := message.content.map (stripBotMention botUserId) }
      else
        message
    let dualEmit :=
      if message.attachments.length > 0 ∧ message.content.getD "" ≠ "" then
        let event := setMessageType (wrapInit message) .message
        [{ hook := "hook:chatbot:message",
           eventType := getEventType event,
           messageType := getMessageType event,
           id := getId event }]
      else
        []
    dualEmit ++ emitEvent message

/-! ## Outgoing envelopes (host platform `@/chat/schemas/types/message`) -/

inductive ButtonType
  | postback
  | web_url
deriving DecidableEq

/-- A host-platform button (`Button`): `payload` is meaningful for
`postback` buttons, `url` for `web_url` buttons. -/
structure Button where
  type : ButtonType
  title : String
  payload : String := ""
  url : String := ""
deriving DecidableEq

/-- A host-platform quick reply. -/
structure StdQuickReply where
  title : String := ""
  payload : String := ""
deriving DecidableEq

/-- A durable attachment reference (`AttachmentRef`): either a stored
attachment id or a direct URL. -/
structure AttachmentRef where
  id : Option String := none
  url : Option String := none
deriving DecidableEq

/-- A dynamic value stored under a content element's field: either a plain
string or an object carrying an attachment `payload` (mirroring the
`typeof element[field] === 'string'` check in `_carouselFormat`). -/
inductive AttrVal
  | str (s : String)
  | obj (payload : AttachmentRef)
deriving DecidableEq

structure StdOutgoingTextMessage where
  text : String
deriving DecidableEq

structure StdOutgoingQuickRepliesMessage where
  text : String
  quickReplies : List StdQuickReply
deriving DecidableEq

structure StdOutgoingButtonsMessage where
  text : String
  buttons : List Button
deriving DecidableEq

structure OutgoingAttachment where
  type : FileType := .file
  payload : AttachmentRef := {}
deriving DecidableEq

structure StdOutgoingAttachmentMessage where
  attachment : OutgoingAttachment
  quickReplies : Option (List StdQuickReply) := none
deriving DecidableEq

/-- The field-name mapping of a list/carousel envelope
(`message.options.fields`). -/
structure ContentFields where
  subtitle : Option String := none
  url : Option String := none
  image_url : Option String := none
deriving DecidableEq

/-- Source `message.options`: `buttons` is a required array in the host type (a JS
array, even empty, is truthy, so `if (message.options.buttons)` always
passes). -/
structure ContentOptions where
  fields : ContentFields
  buttons : List Button := []
deriving DecidableEq

/-- A list/carousel content element: a `title` plus dynamic fields
addressed by name through `options.fields`. -/
structure ContentElement where
  title : String
  attrs : List (String × AttrVal) := []
deriving DecidableEq

structure Pagination where
  total : Nat
  skip : Nat
  limit : Nat
deriving DecidableEq

structure StdOutgoingListMessage where
  options : ContentOptions
  elements : List ContentElement
  pagination : Option Pagination := none
deriving DecidableEq

/-- The outgoing envelope tagged union; `unsupported` stands for any
envelope whose `format` tag is outside the recognized set (the `default`
branch of the `_formatMessage` switch). -/
inductive StdOutgoingEnvelope
  | text (message : StdOutgoingTextMessage)
  | quickReplies (message : StdOutgoingQuickRepliesMessage)
  | buttons (message : StdOutgoingButtonsMessage)
  | attachment (message : StdOutgoingAttachmentMessage)
  | list (message : StdOutgoingListMessage)
  | carousel (message : StdOutgoingListMessage)
  | unsupported (format : String)
deriving DecidableEq

/-- Source `envelope.format`, the tag the `_formatMessage` switch dispatches on. -/
def StdOutgoingEnvelope.format : StdOutgoingEnvelope → String
  | .text _ => "text"
  | .quickReplies _ => "quickReplies"
  | .buttons _ => "buttons"
  | .attachment _ => "attachment"
  | .list _ => "list"
  | .carousel _ => "carousel"
  | .unsupported f => f

structure BlockOptions where
  typing : Bool := false
deriving DecidableEq

/-! ## Discord send payloads (discord.js builders, final states) -/

/-- Final state of a discord.js `ButtonBuilder`. A field is `none` when the
corresponding setter was never called. (`url` holds the raw value passed to
`setURL`, which in `_carouselFormat` is a dynamic element field.) -/
structure DiscordButton where
  label : Option String := none
  style : ButtonStyle := .secondary
  customId : Option String := none
  url : Option AttrVal := none
  disabled : Bool := false
  emoji : Option String := none
deriving DecidableEq

/-- One action row of interactive components. -/
abbrev ActionRow := List DiscordButton

/-- Final state of a discord.js `EmbedBuilder`. `description` and `url`
hold the raw dynamic values passed to the setters. -/
structure Embed where
  title : Option String := none
  description : Option AttrVal := none
  url : Option AttrVal := none
  image : Option String := none
deriving DecidableEq

/-- Final state of a discord.js `AttachmentBuilder`. -/
structure AttachmentFile where
  url : String
  name : Option String := none
deriving DecidableEq

/-- A `Discord.OutgoingMessage` send payload
(`{content?, embeds?, components?, files?}`; an absent key is modelled by
`none` / the empty list). -/
structure OutgoingMessage where
  content : Option String := none
  embeds : List Embed := []
  components : List ActionRow := []
  files : List AttachmentFile := []
deriving DecidableEq

/-! ## Outgoing formatter (`index.channel.ts`, `_xxxFormat`) -/

/-- JS truthiness of a possibly-absent string (`''`, `null` and `undefined`
are falsy). -/
def truthyStr (o : Option String) : Bool :=
  o.getD "" ≠ ""

/-- JS truthiness of an optional field name (same as `truthyStr`). -/
def truthyName (o : Option String) : Bool :=
  o.getD "" ≠ ""

/-- JS truthiness of a dynamic element field value. -/
def truthyVal : Option AttrVal → Bool
  | none => false
  | some (.str s) => s ≠ ""
  | some (.obj _) => true

/-- Lookup `element[field]` for a content element. -/
def ContentElement.get (el : ContentElement) (field : String) : Option AttrVal :=
  (el.attrs.find? (fun p => p.1 == field)).map (fun p => p.2)

/-- Lookup `element[fields.x]` where the field name itself may be absent. -/
def lookupField (field : Option String) (el : ContentElement) : Option AttrVal :=
  match field with
  | some f => el.get f
  | none => none

/-- Source `DiscordChannelHandler._textFormat`. -/
def _textFormat (message : StdOutgoingTextMessage) : OutgoingMessage :=
  { content := some message.text }

/-- Source `DiscordChannelHandler._quickRepliesFormat`: one row of primary-styled
buttons, `customId` = reply payload, `label` = reply title. -/
def _quickRepliesFormat (message : StdOutgoingQuickRepliesMessage) :
    OutgoingMessage :=
  let row : ActionRow := message.quickReplies.map fun button =>
    { customId := some button.payload,
      label := some button.title,
      style := .primary }
  { content := some message.text, components := [row] }

/-- Source `DiscordChannelHandler._buttonsFormat`. -/
def _buttonsFormat (message : StdOutgoingButtonsMessage) : OutgoingMessage :=
  let row : ActionRow := message.buttons.map fun button =>
    if button.type = .postback then
      { label := some button.title,
        customId := some button.payload,
        style := .secondary }
    else
      { label := some button.title,
        url := some (.str button.url),
        style := .link }
  { content := some message.text, components := [row] }

/-- Source `DiscordChannelHandler._attachmentFormat`: resolve the attachment to a
public URL (`getPublicUrl` is the external collaborator call) and, when
quick replies are present, merge their row into the same payload. Note the
source passes `button.title` to `setCustomId` and `button.payload` to
`setLabel` here. -/
def _attachmentFormat (getPublicUrl : AttachmentRef → String)
    (message : StdOutgoingAttachmentMessage) : OutgoingMessage :=
  let url := getPublicUrl message.attachment.payload
  let file : AttachmentFile := { url := url }
  match message.quickReplies with
  | some quickReplies =>
    if quickReplies.length > 0 then
      let row : ActionRow := quickReplies.map fun button =>
        { customId := some button.title,
          label := some button.payload,
          style := .primary }
      { files := [file], components := [row] }
    else
      { files := [file] }
  | none => { files := [file] }

/-- One button of a carousel element's row (the `forEach` body over
`message.options.buttons` in `_carouselFormat`): a `web_url` button gets
the element's own URL field, a `postback` button its payload as custom
id. -/
def mkCarouselButton (fields : ContentFields) (el : ContentElement)
    (button : Button) : DiscordButton :=
  let b0 : DiscordButton :=
    { label := some button.title,
      style := if button.type = .web_url then .link else .secondary }
  let b1 :=
    if button.type = .web_url then { b0 with url := lookupField fields.url el }
    else b0
  if button.type = .web_url ∧ truthyName fields.url ∧
      truthyVal (lookupField fields.url el) then
    { b1 with url := lookupField fields.url el }
  else if button.type = .postback then
    { b1 with customId := some button.payload }
  else
    b1

/-- The embed/file pair built for one carousel element (the loop body of
`_carouselFormat`): `now` is the value `Date.now()` returns for this
element's image, the filename is `image-<now>.png` and the embed
references it as `attachment://<name>`. -/
def buildCarouselElement (getPublicUrl : AttachmentRef → String)
    (fields : ContentFields) (el : ContentElement) (now : Nat) :
    Embed × Option AttachmentFile :=
  let embed : Embed :=
    { title := some el.title,
      description :=
        if truthyName fields.subtitle ∧ truthyVal (lookupField fields.subtitle el)
        then lookupField fields.subtitle el
        else none,
      url :=
        if truthyName fields.url ∧ truthyVal (lookupField fields.url el)
        then lookupField fields.url el
        else none }
  if truthyName fields.image_url ∧ truthyVal (lookupField fields.image_url el) then
    let attachmentName := "image-" ++ toString now ++ ".png"
    let attachmentRef : AttachmentRef :=
      match lookupField fields.image_url el with
      | some (.str s) => { url := some s }
      | some (.obj payload) => payload
      | none => {}
    ({ embed with image := some ("attachment://" ++ attachmentName) },
     some { url := getPublicUrl attachmentRef, name := some attachmentName })
  else
    (embed, none)

/-- The element loop of `_carouselFormat`, accumulating the three parallel
arrays (`embeds`, `rows`, `attachments`); `tick` counts the `Date.now()`
calls made so far, `dateNow` is the external clock. -/
def carouselLoop (getPublicUrl : AttachmentRef → String) (dateNow : Nat → Nat)
    (opts : ContentOptions) :
    List ContentElement → Nat → List Embed × List ActionRow × List AttachmentFile
  | [], _ => ([], [], [])
  | el :: rest, tick =>
    let be := buildCarouselElement getPublicUrl opts.fields el (dateNow tick)
    let row : ActionRow := opts.buttons.map (mkCarouselButton opts.fields el)
    let next := carouselLoop getPublicUrl dateNow opts rest
      (tick + if be.2.isSome then 1 else 0)
    (be.1 :: next.1, row :: next.2.1, be.2.toList ++ next.2.2)

/-- Source `DiscordChannelHandler._carouselFormat`. -/
def _carouselFormat (getPublicUrl : AttachmentRef → String) (dateNow : Nat → Nat)
    (message : StdOutgoingListMessage) : OutgoingMessage :=
  let acc := carouselLoop getPublicUrl dateNow message.options message.elements 0
  { embeds := acc.1, components := acc.2.1, files := acc.2.2 }

/-- The trailing "View More" pagination button of `_listFormat`. -/
def viewMoreButton : DiscordButton :=
  { label := some "View More",
    style := .primary,
    customId := some "VIEW_MORE" }

/-- Source `DiscordChannelHandler._listFormat`: format as a carousel, then append
one "View More" row when `pagination.total - skip - limit > 0` (JS number
subtraction, hence the `Int` cast). -/
def _listFormat (getPublicUrl : AttachmentRef → String) (dateNow : Nat → Nat)
    (message : StdOutgoingListMessage) : OutgoingMessage :=
  let res := _carouselFormat getPublicUrl dateNow message
  match message.pagination with
  | some pagination =>
    if (pagination.total : Int) - pagination.skip - pagination.limit > 0 then
      { res with components := res.components ++ [[viewMoreButton]] }
    else
      res
  | none => res

/-- Errors of the format/send path (`throw new Error(...)` sites):
`unknownMessageFormat` is `'Unknown message format'` (the spec's
`UnsupportedMessageFormat` condition), `channelNotTextBased` is
`'Only text-based channels are supported (For now ...)'`. -/
inductive SendError
  | unknownMessageFormat
  | channelNotTextBased
deriving DecidableEq

/-- Source `DiscordChannelHandler._formatMessage`: dispatch on the envelope format
tag; the `default` branch throws. -/
def _formatMessage (getPublicUrl : AttachmentRef → String) (dateNow : Nat → Nat)
    (envelope : StdOutgoingEnvelope) : Except SendError OutgoingMessage :=
  match envelope with
  | .attachment message => .ok (_attachmentFormat getPublicUrl message)
  | .buttons message => .ok (_buttonsFormat message)
  | .carousel message => .ok (_carouselFormat getPublicUrl dateNow message)
  | .list message => .ok (_listFormat getPublicUrl dateNow message)
  | .quickReplies message => .ok (_quickRepliesFormat message)
  | .text message => .ok (_textFormat message)
  | .unsupported _ => .error .unknownMessageFormat

/-! ## Channel handler, send side (`sendMessage`,
`sendListCarouselMessage`, `disableButtonInteractions`) -/

/-- The target Discord channel, as resolved by `client.channels.fetch`: the
transport assigns `sendId n` to the `n`-th `channel.send` call of one
`sendMessage` invocation. -/
structure DiscordChannel where
  isTextBased : Bool
  sendId : Nat → String

/-- One network operation issued on the channel. -/
inductive NetOp
  | sendTyping
  | send (id : String) (message : OutgoingMessage)
deriving DecidableEq

/-- The ids of the messages actually sent, in order. -/
def sentIds (ops : List NetOp) : List String :=
  ops.filterMap fun op =>
    match op with
    | .send id _ => some id
    | .sendTyping => none

/-- The zero-width space used as placeholder content (`'​'`). -/
def zwsp : String := "​"

/-- The per-element send loop of `sendListCarouselMessage`: element `i` is
sent with its index-aligned component row and file when those indices exist
(`component && ...`, `file && ...`); returns `lastResId` (the id of the
final loop send) and the operations issued. `cnt` counts sends already
issued on the channel. -/
def carouselSendLoop (ch : DiscordChannel) (payload : OutgoingMessage) :
    List Embed → Nat → Nat → Option String × List NetOp
  | [], _, _ => (none, [])
  | embed :: rest, i, cnt =>
    let resBody : OutgoingMessage :=
      { content := some zwsp,
        embeds := [embed],
        components := (payload.components[i]?).toList,
        files := (payload.files[i]?).toList }
    let thisId := ch.sendId cnt
    let next := carouselSendLoop ch payload rest (i + 1) (cnt + 1)
    (some (next.1.getD thisId), NetOp.send thisId resBody :: next.2)

/-- Source `DiscordChannelHandler.sendListCarouselMessage`: send the elements one
by one; for a `list` envelope additionally send
`{components: [payload.components[payload.embeds.length]]}` afterwards
(whose own id is discarded), and return `lastResId` from the loop. -/
def sendListCarouselMessage (ch : DiscordChannel) (payload : OutgoingMessage)
    (isList : Bool) : Option String × List NetOp :=
  let loop := carouselSendLoop ch payload payload.embeds 0 0
  if isList then
    (loop.1,
     loop.2 ++ [NetOp.send (ch.sendId payload.embeds.length)
       { components := (payload.components[payload.embeds.length]?).toList }])
  else
    loop

def StdOutgoingEnvelope.isListOrCarousel : StdOutgoingEnvelope → Bool
  | .list _ => true
  | .carousel _ => true
  | _ => false

def StdOutgoingEnvelope.isList : StdOutgoingEnvelope → Bool
  | .list _ => true
  | _ => false

/-- Source `DiscordChannelHandler.sendMessage`: format the envelope (errors
propagate before any network call), require a text-based channel, send the
typing indicator when requested, then either run the list/carousel
multi-message sequence or one plain send. The guard
`(format === list || format === carousel) && 'embeds' in payload` reduces
to the format test because `_listFormat`/`_carouselFormat` payloads always
carry an `embeds` key. Returns the issued operations and the result
(`mid`); `mid` is `none` when the code would return JS `undefined`. -/
def sendMessage (getPublicUrl : AttachmentRef → String) (dateNow : Nat → Nat)
    (envelope : StdOutgoingEnvelope) (options : BlockOptions)
    (ch : DiscordChannel) : List NetOp × Except SendError (Option String) :=
  match _formatMessage getPublicUrl dateNow envelope with
  | .error e => ([], .error e)
  | .ok payload =>
    if ch.isTextBased then
      let typingOps := if options.typing then [NetOp.sendTyping] else []
      if envelope.isListOrCarousel then
        let res := sendListCarouselMessage ch payload envelope.isList
        (typingOps ++ res.2, .ok res.1)
      else
        (typingOps ++ [NetOp.send (ch.sendId 0) payload],
         .ok (some (ch.sendId 0)))
    else
      ([], .error .channelNotTextBased)

/-- The `forEach` body of `disableButtonInteractions`: rebuild one button
with its label and style, disabled; mark it with a ✅ emoji when its custom
id matches the clicked one; keep its custom id when truthy; and when it
carries a URL, set the URL and re-enable it. -/
def disableOne (interactionCustomId : String) (component : ButtonComponent) :
    DiscordButton :=
  let isSelected := component.customId == some interactionCustomId
  let b : DiscordButton :=
    { label := component.label, style := component.style, disabled := true }
  let b := if isSelected then { b with emoji := some "✅" } else b
  let b :=
    if truthyStr component.customId then { b with customId := component.customId }
    else b
  if truthyStr component.url then
    { b with url := component.url.map .str, disabled := false }
  else
    b

/-- Source `DiscordChannelHandler.disableButtonInteractions`: rebuild the first
component row of the interaction's message. -/
def disableButtonRow (interactionCustomId : String)
    (oldRow : List ButtonComponent) : ActionRow :=
  oldRow.map (disableOne interactionCustomId)

/-! ## Spec-side definitions (for refinement claims) -/

/-- Classification of a raw event as worded by the spec: "if the event has
a customId field it gets eventType=message and messageType=postback;
otherwise if it has a content field it gets eventType=echo when the author
is the bot and eventType=message otherwise, with messageType=attachments
when one or more attachments are present and messageType=message
otherwise; any other shape gets eventType=unknown". -/
def specEventClassification (e : IncomingEvent) :
    StdEventType × Option IncomingMessageType :=
  if e.customId.isSome then
    (.message, some .postback)
  else if e.content.isSome then
    (if e.authorBot then .echo else .message,
     some (if e.attachments.length ≥ 1 then .attachments else .message))
  else
    (.unknown, none)

/-! ## Theorems -/

/-- C1: for every raw incoming event, `_init` classifies by field presence
in priority order — `customId` ⇒ message/postback; else `content` ⇒ echo
when the author is the bot and message otherwise, with messageType
attachments iff one or more attachments are present; any other shape ⇒
unknown. -/
theorem C1_event_classification (e : IncomingEvent) :
    ((wrapInit e).eventType, (wrapInit e).messageType) =
      specEventClassification e := by
  unfold wrapInit specEventClassification
  by_cases h1 : e.customId.isSome <;> by_cases h2 : e.content.isSome <;>
    simp [h1, h2, Nat.succ_le_iff, ge_iff_le]

/-- C9: an attachments-classified event with zero resolved attachments
still yields a payload and a message (no throw), degrading to the explicit
"unknown attachment" placeholder. -/
theorem C9_empty_attachments_placeholder (a : DiscordEventAdapter)
    (hmt : a.messageType = some .attachments)
    (hatt : a.attachments = []) :
    getPayload a = .attachments { type := .unknown, payloadId := none } ∧
    getMessage a = .ok (.attachments "attachment:unknown" .empty) := by
  unfold getPayload getMessage
  simp [hmt, hatt, FileType.toStr]

/-- Witness for C9 at a concrete adapter. -/
theorem C9_empty_attachments_placeholder_witness :
    ({ eventType := .message, messageType := some .attachments,
       raw := { id := "m9" }, attachments := [] } :
        DiscordEventAdapter).attachments = [] ∧
    getPayload { eventType := .message, messageType := some .attachments,
                 raw := { id := "m9" }, attachments := [] } =
      .attachments { type := .unknown, payloadId := none } ∧
    getMessage { eventType := .message, messageType := some .attachments,
                 raw := { id := "m9" }, attachments := [] } =
      .ok (.attachments "attachment:unknown" .empty) :=
  ⟨rfl,
   C9_empty_attachments_placeholder
     { eventType := .message, messageType := some .attachments,
       raw := { id := "m9" }, attachments := [] } rfl rfl⟩

/-- C10: an attachments-classified event with two or more resolved
attachments yields a payload describing only the first attachment, and a
message whose serialized text names only the first attachment's type and
name (the `attachment` field of the message does carry the full list). -/
theorem C10_first_attachment_only (a : DiscordEventAdapter)
    (first second : StoredAttachment) (rest : List StoredAttachment)
    (hmt : a.messageType = some .attachments)
    (hatt : a.attachments = first :: second :: rest) :
    getPayload a =
      .attachments { type := getTypeByMime first.type,
                     payloadId := some first.id } ∧
    getMessage a =
      .ok (.attachments
        ("attachment:" ++ (getTypeByMime first.type).toStr ++ ":" ++ first.name)
        (.multiple ((first :: second :: rest).map fun attachment =>
          { type := getTypeByMime attachment.type,
            payloadId := some attachment.id }))) := by
  unfold getPayload getMessage
  simp [hmt, hatt]

/-- Witness for C10 at a concrete adapter with two attachments. -/
theorem C10_first_attachment_only_witness :
    getPayload { eventType := .message, messageType := some .attachments,
                 raw := { id := "m10" },
                 attachments :=
                   [{ id := "a1", type := some "image/png", name := "pic.png" },
                    { id := "a2", type := some "application/pdf", name := "doc.pdf" }] } =
      .attachments { type := .image, payloadId := some "a1" } ∧
    getMessage { eventType := .message, messageType := some .attachments,
                 raw := { id := "m10" },
                 attachments :=
                   [{ id := "a1", type := some "image/png", name := "pic.png" },
                    { id := "a2", type := some "application/pdf", name := "doc.pdf" }] } =
      .ok (.attachments "attachment:image:pic.png"
        (.multiple [{ type := .image, payloadId := some "a1" },
                    { type := .unknown, payloadId := some "a2" }])) := by
  have h := C10_first_attachment_only
    { eventType := .message, messageType := some .attachments,
      raw := { id := "m10" },
      attachments :=
        [{ id := "a1", type := some "image/png", name := "pic.png" },
         { id := "a2", type := some "application/pdf", name := "doc.pdf" }] }
    { id := "a1", type := some "image/png", name := "pic.png" }
    { id := "a2", type := some "application/pdf", name := "doc.pdf" }
    [] rfl rfl
  refine ⟨?_, ?_⟩
  · rw [h.1]; rfl
  · rw [h.2]; rfl

/-- Prefixing with `attachment-` always changes a string. -/
theorem attachment_prefix_ne (s : String) : "attachment-" ++ s ≠ s := by
  intro h
  have h2 := congrArg String.length h
  rw [String.length_append] at h2
  have h3 : ("attachment-" : String).length = 11 := rfl
  omega

/-- C3: a raw message passing the inbound filters that carries both at
least one attachment and nonempty (post-strip) text is emitted as exactly
two canonical events — first the text one with `messageType = message`,
then the attachments one — with distinct ids, the attachments id being the
message id with the `attachment-` prefix. -/
theorem C3_dual_emission (botUserId : String) (e : IncomingEvent) (c : String)
    (hc : e.content = some c)
    (hcid : e.customId = none)
    (hsys : e.system = false)
    (htb : e.channelTextBased = true)
    (hmention : e.channelKind = .guildText → e.mentionsBot = true)
    (hatt : e.attachments.length > 0)
    (hne : (if e.channelKind = .guildText then stripBotMention botUserId c else c) ≠ "") :
    handleMessageCreate botUserId e =
      [{ hook := "hook:chatbot:message",
         eventType := if e.authorBot then .echo else .message,
         messageType := some .message,
         id := e.id },
       { hook := "hook:chatbot:" ++
           (if e.authorBot then StdEventType.echo else .message).hookName,
         eventType := if e.authorBot then .echo else .message,
         messageType := some .attachments,
         id := "attachment-" ++ e.id }] ∧
      "attachment-" ++ e.id ≠ e.id := by
  refine ⟨?_, attachment_prefix_ne e.id⟩
  by_cases hg : e.channelKind = .guildText <;>
    by_cases hb : e.authorBot = true <;>
      simp only [hg, hb, if_true, if_false] at hne ⊢ <;>
        simp [handleMessageCreate, hsys, htb, hg, hb, hmention, hc, hcid,
          emitEvent, wrapInit, setMessageType, getId, getMessageType,
          getEventType, StdEventType.hookName, hatt, hne]

/-- Witness for C3 at a concrete DM message carrying text and one
attachment. -/
theorem C3_dual_emission_witness :
    ({ id := "m3", content := some "hello", attachments := [{}] } :
        IncomingEvent).attachments.length > 0 ∧
    handleMessageCreate "b1"
        { id := "m3", content := some "hello", attachments := [{}] } =
      [{ hook := "hook:chatbot:message", eventType := .message,
         messageType := some .message, id := "m3" },
       { hook := "hook:chatbot:message", eventType := .message,
         messageType := some .attachments, id := "attachment-m3" }] ∧
    ("attachment-m3" : String) ≠ "m3" := by
  have h := C3_dual_emission "b1"
    { id := "m3", content := some "hello", attachments := [{}] } "hello"
    rfl rfl rfl rfl (fun hk => nomatch hk) (by decide) (by decide)
  refine ⟨by decide, ?_, by decide⟩
  rw [h.1]; rfl

/-- C4: `_listFormat` appends exactly one trailing "View More" row —
carrying the fixed custom id `VIEW_MORE` — if and only if the pagination
metadata satisfies `total - skip - limit > 0`; embeds and files are never
touched. -/
theorem C4_list_view_more (getPublicUrl : AttachmentRef → String)
    (dateNow : Nat → Nat) (message : StdOutgoingListMessage) (p : Pagination)
    (hp : message.pagination = some p) :
    viewMoreButton.customId = some "VIEW_MORE" ∧
    ((p.total : Int) - p.skip - p.limit > 0 →
      (_listFormat getPublicUrl dateNow message).components =
        (_carouselFormat getPublicUrl dateNow message).components ++
          [[viewMoreButton]]) ∧
    (¬ ((p.total : Int) - p.skip - p.limit > 0) →
      (_listFormat getPublicUrl dateNow message).components =
        (_carouselFormat getPublicUrl dateNow message).components) ∧
    (_listFormat getPublicUrl dateNow message).embeds =
      (_carouselFormat getPublicUrl dateNow message).embeds ∧
    (_listFormat getPublicUrl dateNow message).files =
      (_carouselFormat getPublicUrl dateNow message).files := by
  refine ⟨rfl, ?_, ?_, ?_, ?_⟩
  · intro h; simp [_listFormat, hp, h]
  · intro h; simp [_listFormat, hp, h]
  · by_cases h : (p.total : Int) - p.skip - p.limit > 0 <;>
      simp [_listFormat, hp, h]
  · by_cases h : (p.total : Int) - p.skip - p.limit > 0 <;>
      simp [_listFormat, hp, h]

def c4MsgA : StdOutgoingListMessage :=
  { options := { fields := {} }, elements := [{ title := "Item 1" }],
    pagination := some { total := 50, skip := 0, limit := 10 } }

def c4MsgB : StdOutgoingListMessage :=
  { options := { fields := {} }, elements := [{ title := "Item 1" }],
    pagination := some { total := 50, skip := 40, limit := 10 } }

/-- Witness for C4: `total=50, skip=0, limit=10` appends exactly one View
More row; `skip=40, limit=10` appends none. -/
theorem C4_list_view_more_witness :
    ((50 : Int) - 0 - 10 > 0) ∧
    (_listFormat (fun _ => "") (fun _ => 0) c4MsgA).components =
      (_carouselFormat (fun _ => "") (fun _ => 0) c4MsgA).components ++
        [[viewMoreButton]] ∧
    (¬ ((50 : Int) - 40 - 10 > 0)) ∧
    (_listFormat (fun _ => "") (fun _ => 0) c4MsgB).components =
      (_carouselFormat (fun _ => "") (fun _ => 0) c4MsgB).components :=
  ⟨by decide,
   (C4_list_view_more (fun _ => "") (fun _ => 0) c4MsgA
     { total := 50, skip := 0, limit := 10 } rfl).2.1 (by decide),
   by decide,
   (C4_list_view_more (fun _ => "") (fun _ => 0) c4MsgB
     { total := 50, skip := 40, limit := 10 } rfl).2.2.1 (by decide)⟩

/-- C5: any envelope whose format tag is outside the recognized set makes
`sendMessage` reject with the `UnsupportedMessageFormat` condition
(`'Unknown message format'`) while issuing no network operation at all. -/
theorem C5_unknown_format (getPublicUrl : AttachmentRef → String)
    (dateNow : Nat → Nat) (envelope : StdOutgoingEnvelope)
    (options : BlockOptions) (ch : DiscordChannel)
    (h : envelope.format ∉
      ["text", "quickReplies", "buttons", "attachment", "list", "carousel"]) :
    sendMessage getPublicUrl dateNow envelope options ch =
      ([], .error .unknownMessageFormat) := by
  cases envelope
  case unsupported f => rfl
  all_goals simp [StdOutgoingEnvelope.format] at h

/-- Witness for C5 at the format tag `unsupported_format`. -/
theorem C5_unknown_format_witness :
    (StdOutgoingEnvelope.unsupported "unsupported_format").format ∉
      ["text", "quickReplies", "buttons", "attachment", "list", "carousel"] ∧
    sendMessage (fun _ => "") (fun _ => 0)
        (.unsupported "unsupported_format") { typing := true }
        { isTextBased := true, sendId := fun n => toString n } =
      ([], .error .unknownMessageFormat) :=
  ⟨by decide,
   C5_unknown_format (fun _ => "") (fun _ => 0)
     (.unsupported "unsupported_format") { typing := true }
     { isTextBased := true, sendId := fun n => toString n } (by decide)⟩

/-- Pointwise behaviour of the `disableButtonInteractions` rebuild step. -/
theorem disableOne_spec (clicked : String) (c : ButtonComponent) :
    (disableOne clicked c).disabled = !truthyStr c.url ∧
    (disableOne clicked c).emoji =
      (if c.customId == some clicked then some "✅" else none) := by
  unfold disableOne
  by_cases h1 : (c.customId == some clicked) = true <;>
    by_cases h2 : truthyStr c.customId = true <;>
      by_cases h3 : truthyStr c.url = true <;>
        simp [h1, h2, h3]

/-- C6: rewriting the row after a button click disables every button that
carries no URL, leaves URL-carrying (link-style) buttons enabled, and marks
exactly one button — the one whose custom id matches the clicked id — with
the ✅ selection indicator. -/
theorem C6_disable_buttons (clicked : String) (oldRow : List ButtonComponent)
    (huniq : oldRow.countP (fun c => c.customId == some clicked) = 1) :
    (disableButtonRow clicked oldRow).length = oldRow.length ∧
    (∀ (i : Nat) c, oldRow[i]? = some c →
      (disableButtonRow clicked oldRow)[i]? = some (disableOne clicked c) ∧
      (disableOne clicked c).disabled = !truthyStr c.url ∧
      (disableOne clicked c).emoji =
        (if c.customId == some clicked then some "✅" else none)) ∧
    (disableButtonRow clicked oldRow).countP
      (fun b => b.emoji == some "✅") = 1 := by
  refine ⟨List.length_map _ _, ?_, ?_⟩
  · intro i c hi
    refine ⟨?_, disableOne_spec clicked c⟩
    simp [disableButtonRow, List.getElem?_map, hi]
  · rw [disableButtonRow, List.countP_map]
    rw [← huniq]
    apply List.countP_congr
    intro c _
    simp only [Function.comp]
    rw [(disableOne_spec clicked c).2]
    by_cases h : (c.customId == some clicked) = true <;> simp [h]

def c6Row : List ButtonComponent :=
  [{ customId := some "OPT_A", label := some "Option A", style := .secondary },
   { customId := some "OPT_B", label := some "Option B", style := .secondary },
   { label := some "Docs", style := .link, url := some "https://docs.example" }]

/-- Witness for C6 on a concrete row with two postback buttons and one
link button, clicking `OPT_B`. -/
theorem C6_disable_buttons_witness :
    c6Row.countP (fun c => c.customId == some "OPT_B") = 1 ∧
    ((disableButtonRow "OPT_B" c6Row).length = c6Row.length ∧
     (∀ (i : Nat) c, c6Row[i]? = some c →
       (disableButtonRow "OPT_B" c6Row)[i]? = some (disableOne "OPT_B" c) ∧
       (disableOne "OPT_B" c).disabled = !truthyStr c.url ∧
       (disableOne "OPT_B" c).emoji =
         (if c.customId == some "OPT_B" then some "✅" else none)) ∧
     (disableButtonRow "OPT_B" c6Row).countP
       (fun b => b.emoji == some "✅") = 1) :=
  ⟨by decide, C6_disable_buttons "OPT_B" c6Row (by decide)⟩

/-- C8: `_quickRepliesFormat` renders every quick reply with
`customId = payload`, `label = title`, primary style, in a single row; but
`_attachmentFormat` renders a merged quick-reply row with the two arguments
swapped (`customId = title`, `label = payload`), exhibited on a concrete
reply `{title := Yes, payload := YES_PAYLOAD}`. -/
theorem C8_quick_reply_rendering :
    (∀ (message : StdOutgoingQuickRepliesMessage),
      (_quickRepliesFormat message).components =
        [message.quickReplies.map fun button =>
          { customId := some button.payload,
            label := some button.title,
            style := .primary }]) ∧
    (_attachmentFormat (fun _ => "https://cdn.example/a.png")
        { attachment := { type := .image, payload := { id := some "att1" } },
          quickReplies := some [{ title := "Yes", payload := "YES_PAYLOAD" }] }).components =
      [[{ customId := some "Yes",
          label := some "YES_PAYLOAD",
          style := .primary }]] :=
  ⟨fun _ => rfl, rfl⟩

/-- A carousel element whose image field is present produces an embed
keeping its title, referencing the generated filename as
`attachment://image-<now>.png`, and a file attachment of that same name. -/
theorem buildCarouselElement_of_image (getPublicUrl : AttachmentRef → String)
    (fields : ContentFields) (el : ContentElement) (now : Nat) (f : String)
    (hf : fields.image_url = some f) (hf0 : f ≠ "")
    (himg : truthyVal (el.get f) = true) :
    (buildCarouselElement getPublicUrl fields el now).1.title = some el.title ∧
    (buildCarouselElement getPublicUrl fields el now).1.image =
      some ("attachment://" ++ ("image-" ++ toString now ++ ".png")) ∧
    ∃ u, (buildCarouselElement getPublicUrl fields el now).2 =
      some { url := u, name := some ("image-" ++ toString now ++ ".png") } := by
  have hguard : truthyName fields.image_url = true ∧
      truthyVal (lookupField fields.image_url el) = true := by
    constructor
    · simp [truthyName, hf, hf0]
    · simp [lookupField, hf, himg]
  unfold buildCarouselElement
  rw [if_pos hguard]
  exact ⟨rfl, rfl, _, rfl⟩

/-- The embed and row arrays of the carousel loop have one entry per
element. -/
theorem carouselLoop_lengths (getPublicUrl : AttachmentRef → String)
    (dateNow : Nat → Nat) (opts : ContentOptions) :
    ∀ (els : List ContentElement) (tick : Nat),
      (carouselLoop getPublicUrl dateNow opts els tick).1.length = els.length ∧
      (carouselLoop getPublicUrl dateNow opts els tick).2.1.length = els.length := by
  intro els
  induction els with
  | nil => intro tick; simp [carouselLoop]
  | cons el rest ih =>
    intro tick
    simp [carouselLoop, ih]

/-- When every element carries a truthy image field, the file array of the
carousel loop also has one entry per element. -/
theorem carouselLoop_files_length (getPublicUrl : AttachmentRef → String)
    (dateNow : Nat → Nat) (opts : ContentOptions) (f : String)
    (hf : opts.fields.image_url = some f) (hf0 : f ≠ "") :
    ∀ (els : List ContentElement) (tick : Nat),
      (∀ el ∈ els, truthyVal (el.get f) = true) →
      (carouselLoop getPublicUrl dateNow opts els tick).2.2.length = els.length := by
  intro els
  induction els with
  | nil => intro tick _; simp [carouselLoop]
  | cons el rest ih =>
    intro tick hall
    obtain ⟨-, -, u, hfile⟩ := buildCarouselElement_of_image getPublicUrl
      opts.fields el (dateNow tick) f hf hf0 (hall el (by simp))
    have hr := ih (tick + 1) (fun x hx => hall x (by simp [hx]))
    simp [carouselLoop, hfile, hr]

/-- Index-aligned description of the carousel loop output when every
element carries a truthy image field: at every index `i` the embed, the
button row and the file all come from element `i`, the embed referencing
exactly the file's generated name. -/
theorem carouselLoop_getElem (getPublicUrl : AttachmentRef → String)
    (dateNow : Nat → Nat) (opts : ContentOptions) (f : String)
    (hf : opts.fields.image_url = some f) (hf0 : f ≠ "") :
    ∀ (els : List ContentElement) (tick : Nat),
      (∀ el ∈ els, truthyVal (el.get f) = true) →
      ∀ (i : Nat), i < els.length →
      ∃ el em rw fl,
        els[i]? = some el ∧
        (carouselLoop getPublicUrl dateNow opts els tick).1[i]? = some em ∧
        (carouselLoop getPublicUrl dateNow opts els tick).2.1[i]? = some rw ∧
        (carouselLoop getPublicUrl dateNow opts els tick).2.2[i]? = some fl ∧
        em.title = some el.title ∧
        em.image = some ("attachment://" ++
          ("image-" ++ toString (dateNow (tick + i)) ++ ".png")) ∧
        fl.name = some ("image-" ++ toString (dateNow (tick + i)) ++ ".png") ∧
        rw = opts.buttons.map (mkCarouselButton opts.fields el) := by
  intro els
  induction els with
  | nil => intro tick _ i hi; simp at hi
  | cons el rest ih =>
    intro tick hall i hi
    obtain ⟨htitle, himage, u, hfile⟩ := buildCarouselElement_of_image getPublicUrl
      opts.fields el (dateNow tick) f hf hf0 (hall el (by simp))
    match i with
    | 0 =>
      refine ⟨el, (buildCarouselElement getPublicUrl opts.fields el (dateNow tick)).1,
        opts.buttons.map (mkCarouselButton opts.fields el),
        { url := u, name := some ("image-" ++ toString (dateNow tick) ++ ".png") },
        ?_, ?_, ?_, ?_, ?_, ?_, ?_, rfl⟩
      · simp
      · simp [carouselLoop]
      · simp [carouselLoop]
      · simp [carouselLoop, hfile]
      · simpa using htitle
      · simpa using himage
      · simp
    | j + 1 =>
      have hj : j < rest.length := by simpa using hi
      obtain ⟨el', em, rw', fl, h1, h2, h3, h4, h5, h6, h7, h8⟩ :=
        ih (tick + 1) (fun x hx => hall x (by simp [hx])) j hj
      refine ⟨el', em, rw', fl, by simpa using h1, ?_, ?_, ?_, h5, ?_, ?_, h8⟩
      · simpa [carouselLoop, hfile] using h2
      · simpa [carouselLoop, hfile] using h3
      · simpa [carouselLoop, hfile] using h4
      · have e : tick + 1 + j = tick + (j + 1) := by omega
        rw [← e]; exact h6
      · have e : tick + 1 + j = tick + (j + 1) := by omega
        rw [← e]; exact h7

/-- C2: a carousel whose elements all carry the image field yields exactly
`N` embeds, `N` component rows and `N` file attachments, index-aligned:
element `i`'s embed (with its title), its button row and its image
attachment share index `i`, the embed referencing exactly that file's
generated name. -/
theorem C2_carousel_alignment (getPublicUrl : AttachmentRef → String)
    (dateNow : Nat → Nat) (message : StdOutgoingListMessage) (f : String)
    (hf : message.options.fields.image_url = some f) (hf0 : f ≠ "")
    (himg : ∀ el ∈ message.elements, truthyVal (el.get f) = true) :
    (_carouselFormat getPublicUrl dateNow message).embeds.length =
      message.elements.length ∧
    (_carouselFormat getPublicUrl dateNow message).components.length =
      message.elements.length ∧
    (_carouselFormat getPublicUrl dateNow message).files.length =
      message.elements.length ∧
    ∀ (i : Nat), i < message.elements.length →
      ∃ el em rw fl nm,
        message.elements[i]? = some el ∧
        (_carouselFormat getPublicUrl dateNow message).embeds[i]? = some em ∧
        (_carouselFormat getPublicUrl dateNow message).components[i]? = some rw ∧
        (_carouselFormat getPublicUrl dateNow message).files[i]? = some fl ∧
        em.title = some el.title ∧
        em.image = some ("attachment://" ++ nm) ∧
        fl.name = some nm ∧
        rw = message.options.buttons.map
          (mkCarouselButton message.options.fields el) := by
  refine ⟨(carouselLoop_lengths getPublicUrl dateNow message.options
      message.elements 0).1,
    (carouselLoop_lengths getPublicUrl dateNow message.options
      message.elements 0).2,
    carouselLoop_files_length getPublicUrl dateNow message.options f hf hf0
      message.elements 0 himg, ?_⟩
  intro i hi
  obtain ⟨el, em, rw', fl, h1, h2, h3, h4, h5, h6, h7, h8⟩ :=
    carouselLoop_getElem getPublicUrl dateNow message.options f hf hf0
      message.elements 0 himg i hi
  exact ⟨el, em, rw', fl, "image-" ++ toString (dateNow (0 + i)) ++ ".png",
    h1, h2, h3, h4, h5, h6, h7, h8⟩

def c2Msg : StdOutgoingListMessage :=
  { options :=
      { fields := { image_url := some "img" },
        buttons := [{ type := .postback, title := "More", payload := "MORE" }] },
    elements :=
      [{ title := "First", attrs := [("img", .str "https://cdn.example/1.png")] },
       { title := "Second", attrs := [("img", .obj { id := some "att2" })] }] }

/-- Witness for C2 on a concrete two-element carousel whose elements both
carry the image field. -/
theorem C2_carousel_alignment_witness :
    c2Msg.options.fields.image_url = some "img" ∧
    (∀ el ∈ c2Msg.elements, truthyVal (el.get "img") = true) ∧
    ((_carouselFormat (fun _ => "https://u") (fun t => t) c2Msg).embeds.length =
        c2Msg.elements.length ∧
     (_carouselFormat (fun _ => "https://u") (fun t => t) c2Msg).components.length =
        c2Msg.elements.length ∧
     (_carouselFormat (fun _ => "https://u") (fun t => t) c2Msg).files.length =
        c2Msg.elements.length ∧
     ∀ (i : Nat), i < c2Msg.elements.length →
       ∃ el em rw fl nm,
         c2Msg.elements[i]? = some el ∧
         (_carouselFormat (fun _ => "https://u") (fun t => t) c2Msg).embeds[i]? =
           some em ∧
         (_carouselFormat (fun _ => "https://u") (fun t => t) c2Msg).components[i]? =
           some rw ∧
         (_carouselFormat (fun _ => "https://u") (fun t => t) c2Msg).files[i]? =
           some fl ∧
         em.title = some el.title ∧
         em.image = some ("attachment://" ++ nm) ∧
         fl.name = some nm ∧
         rw = c2Msg.options.buttons.map
           (mkCarouselButton c2Msg.options.fields el)) :=
  ⟨rfl, by decide,
   C2_carousel_alignment (fun _ => "https://u") (fun t => t) c2Msg "img"
     rfl (by decide) (by decide)⟩

/-- Helper: `sentIds` distributes over concatenation of operation lists. -/
theorem sentIds_append (a b : List NetOp) :
    sentIds (a ++ b) = sentIds a ++ sentIds b :=
  List.filterMap_append ..

/-- Helper: `sentIds` drops a typing indicator and records a send. -/
theorem sentIds_cons_send (id : String) (m : OutgoingMessage)
    (ops : List NetOp) : sentIds (NetOp.send id m :: ops) = id :: sentIds ops :=
  rfl

theorem sentIds_singleton_send (id : String) (m : OutgoingMessage) :
    sentIds [NetOp.send id m] = [id] :=
  rfl

/-- Ids and final id of the per-element send loop: the `k`-th send gets id
`sendId (cnt + k)` and `lastResId` is the id of the final send. -/
theorem carouselSendLoop_spec (ch : DiscordChannel) (payload : OutgoingMessage) :
    ∀ (embeds : List Embed) (i cnt : Nat),
      sentIds (carouselSendLoop ch payload embeds i cnt).2 =
        (List.range' cnt embeds.length).map ch.sendId ∧
      (carouselSendLoop ch payload embeds i cnt).1 =
        (if embeds.length = 0 then none
         else some (ch.sendId (cnt + embeds.length - 1))) := by
  intro embeds
  induction embeds with
  | nil => intro i cnt; simp [carouselSendLoop, sentIds]
  | cons e rest ih =>
    intro i cnt
    obtain ⟨hids, hlast⟩ := ih (i + 1) (cnt + 1)
    constructor
    · simp only [carouselSendLoop, List.length_cons, List.range'_succ,
        List.map_cons]
      rw [sentIds_cons_send, hids]
    · simp only [carouselSendLoop, List.length_cons]
      rw [hlast]
      rcases Nat.eq_zero_or_pos rest.length with hr | hr
      · simp [hr]
      · rw [if_neg (by omega), if_neg (by omega), Option.getD_some]
        congr 2
        omega

/-- The last element of `map g (range' s (n+1))` is `g (s + n)`. -/
theorem getLast?_map_range' (g : Nat → String) :
    ∀ (n s : Nat), ((List.range' s (n + 1)).map g).getLast? = some (g (s + n)) := by
  intro n
  induction n with
  | zero => intro s; simp [List.range']
  | succ m ih =>
    intro s
    rw [List.range'_succ, List.map_cons, List.range'_succ, List.map_cons,
      List.getLast?_cons_cons, ← List.map_cons, ← List.range'_succ, ih (s + 1),
      show s + 1 + m = s + (m + 1) from by omega]

/-- C7 counterexample: for a concrete one-element `list` envelope the code
sends two Discord messages (ids `0` then `1`) but returns `mid = 0`, the id
of the last element message rather than of the last message actually
sent — refuting the claim that the returned mid is the id of the final
message of the whole sequence. -/
theorem C7_counterexample :
    (sendMessage (fun _ => "") (fun _ => 0)
        (.list { options := { fields := {} }, elements := [{ title := "E1" }] })
        { typing := false }
        { isTextBased := true, sendId := fun n => toString n }).2 =
      .ok (some "0") ∧
    sentIds (sendMessage (fun _ => "") (fun _ => 0)
        (.list { options := { fields := {} }, elements := [{ title := "E1" }] })
        { typing := false }
        { isTextBased := true, sendId := fun n => toString n }).1 =
      ["0", "1"] ∧
    ("0" : String) ≠ "1" := by
  refine ⟨?_, ?_, by decide⟩ <;> rfl

/-- Helper: `_listFormat` never changes the embeds produced by `_carouselFormat`. -/
theorem _listFormat_embeds (getPublicUrl : AttachmentRef → String)
    (dateNow : Nat → Nat) (message : StdOutgoingListMessage) :
    (_listFormat getPublicUrl dateNow message).embeds =
      (_carouselFormat getPublicUrl dateNow message).embeds := by
  unfold _listFormat
  cases hp : message.pagination with
  | none => rfl
  | some p =>
    by_cases h : (p.total : Int) - p.skip - p.limit > 0 <;> simp [h]

/-- C7 (amended): for a `carousel` envelope with at least one element the
returned mid is the id of the last message actually sent; for a `list`
envelope the handler sends one extra trailing components-only message
(`elements.length + 1` sends in total) and returns the id of the last
element message — the second-to-last send — discarding the trailing
message's id. -/
theorem C7_amended_last_mid (getPublicUrl : AttachmentRef → String)
    (dateNow : Nat → Nat) (message : StdOutgoingListMessage)
    (options : BlockOptions) (ch : DiscordChannel)
    (htb : ch.isTextBased = true) (hne : message.elements ≠ []) :
    (sendMessage getPublicUrl dateNow (.carousel message) options ch).2 =
      .ok (sentIds
        (sendMessage getPublicUrl dateNow (.carousel message) options ch).1).getLast? ∧
    (sentIds (sendMessage getPublicUrl dateNow (.list message) options ch).1).length =
      message.elements.length + 1 ∧
    (sendMessage getPublicUrl dateNow (.list message) options ch).2 =
      .ok ((sentIds
        (sendMessage getPublicUrl dateNow (.list message) options ch).1).dropLast.getLast?) := by
  obtain ⟨tb, sid⟩ := ch
  have htb' : tb = true := htb
  subst htb'
  have hn0 : message.elements.length ≠ 0 := by
    intro h
    exact hne (List.eq_nil_of_length_eq_zero h)
  obtain ⟨n, hn⟩ : ∃ n, message.elements.length = n + 1 :=
    ⟨message.elements.length - 1, by omega⟩
  have hclen :
      (_carouselFormat getPublicUrl dateNow message).embeds.length =
        message.elements.length :=
    (carouselLoop_lengths getPublicUrl dateNow message.options
      message.elements 0).1
  have hllen :
      (_listFormat getPublicUrl dateNow message).embeds.length =
        message.elements.length := by
    rw [_listFormat_embeds]; exact hclen
  have htyping : ∀ ops : List NetOp,
      sentIds ((if options.typing then [NetOp.sendTyping] else []) ++ ops) =
        sentIds ops := by
    intro ops
    by_cases ht : options.typing <;> simp [ht, sentIds_append, sentIds]
  have hsc : sendMessage getPublicUrl dateNow (.carousel message) options
        ⟨true, sid⟩ =
      ((if options.typing then [NetOp.sendTyping] else []) ++
        (carouselSendLoop ⟨true, sid⟩
          (_carouselFormat getPublicUrl dateNow message)
          (_carouselFormat getPublicUrl dateNow message).embeds 0 0).2,
       .ok (carouselSendLoop ⟨true, sid⟩
          (_carouselFormat getPublicUrl dateNow message)
          (_carouselFormat getPublicUrl dateNow message).embeds 0 0).1) := rfl
  have hsl : sendMessage getPublicUrl dateNow (.list message) options
        ⟨true, sid⟩ =
      ((if options.typing then [NetOp.sendTyping] else []) ++
        ((carouselSendLoop ⟨true, sid⟩
            (_listFormat getPublicUrl dateNow message)
            (_listFormat getPublicUrl dateNow message).embeds 0 0).2 ++
          [NetOp.send (sid (_listFormat getPublicUrl dateNow message).embeds.length)
            { components := ((_listFormat getPublicUrl dateNow
                message).components[(_listFormat getPublicUrl dateNow
                message).embeds.length]?).toList }]),
       .ok (carouselSendLoop ⟨true, sid⟩
          (_listFormat getPublicUrl dateNow message)
          (_listFormat getPublicUrl dateNow message).embeds 0 0).1) := rfl
  obtain ⟨hcids, hclast⟩ := carouselSendLoop_spec ⟨true, sid⟩
    (_carouselFormat getPublicUrl dateNow message)
    (_carouselFormat getPublicUrl dateNow message).embeds 0 0
  obtain ⟨hlids, hllast⟩ := carouselSendLoop_spec ⟨true, sid⟩
    (_listFormat getPublicUrl dateNow message)
    (_listFormat getPublicUrl dateNow message).embeds 0 0
  refine ⟨?_, ?_, ?_⟩
  · -- carousel: mid is the id of the last send
    rw [hsc]
    show Except.ok _ = Except.ok _
    rw [htyping, hcids, hclast, hclen, hn, if_neg (by omega),
      getLast?_map_range']
    have e : 0 + (n + 1) - 1 = 0 + n := by omega
    rw [e]
  · -- list: one send per element plus the trailing one
    rw [hsl]
    show (sentIds _).length = _
    rw [htyping, sentIds_append, hlids, hllen, hn]
    simp [sentIds]
  · -- list: mid is the second-to-last send's id
    rw [hsl]
    show Except.ok _ = Except.ok _
    rw [htyping, sentIds_append, hlids, hllast, hllen, hn, if_neg (by omega)]
    rw [sentIds_singleton_send, List.dropLast_concat, getLast?_map_range']
    have e : 0 + (n + 1) - 1 = 0 + n := by omega
    rw [e]

def c7Msg : StdOutgoingListMessage :=
  { options := { fields := {} }, elements := [{ title := "E1" }] }

def c7Ch : DiscordChannel :=
  { isTextBased := true, sendId := fun n => toString n }

/-- Witness for the amended C7 on a concrete one-element message. -/
theorem C7_amended_last_mid_witness :
    c7Ch.isTextBased = true ∧ c7Msg.elements ≠ [] ∧
    ((sendMessage (fun _ => "") (fun _ => 0) (.carousel c7Msg)
        { typing := false } c7Ch).2 =
      .ok (sentIds (sendMessage (fun _ => "") (fun _ => 0) (.carousel c7Msg)
        { typing := false } c7Ch).1).getLast? ∧
     (sentIds (sendMessage (fun _ => "") (fun _ => 0) (.list c7Msg)
        { typing := false } c7Ch).1).length = c7Msg.elements.length + 1 ∧
     (sendMessage (fun _ => "") (fun _ => 0) (.list c7Msg)
        { typing := false } c7Ch).2 =
      .ok ((sentIds (sendMessage (fun _ => "") (fun _ => 0) (.list c7Msg)
        { typing := false } c7Ch).1).dropLast.getLast?)) :=
  ⟨rfl, by decide,
   C7_amended_last_mid (fun _ => "") (fun _ => 0) c7Msg { typing := false }
     c7Ch rfl (by decide)⟩

end Discord


